import Mathlib

/-!
Shallow embedding of the `ol-model-manager` reconciliation core:
`src/app/kserve_client.py` (class `KServeClient`) and
`src/app/model_catalog.py` (class `ModelCatalog`).

Python dictionaries are modelled as insertion-ordered association lists of
`String × PyVal`; the Kubernetes API is modelled as an environment of
responses (`ClusterEnv`), and each client method is a pure function of that
environment which also returns the ordered trace of cluster calls it made.
-/

namespace OLMM

/-- A Python value, as far as the model-manager code inspects values:
`None`, booleans, integers, strings, lists and (string-keyed) dicts.
Mirrors the JSON-decoded configuration objects the code manipulates. -/
inductive PyVal where
  | vNone : PyVal
  | vBool : Bool → PyVal
  | vInt : Int → PyVal
  | vStr : String → PyVal
  | vArr : List PyVal → PyVal
  | vObj : List (String × PyVal) → PyVal

/-- A Python dict with string keys, in insertion order. -/
abbrev PyDict := List (String × PyVal)

/-- Lookup of a key in a dict (`d[k]` / `d.get(k)` resolution). Later
bindings shadow earlier ones only if a key is duplicated, which normal
construction never does; first match wins. -/
def pyLookup : PyDict → String → Option PyVal
  | [], _ => none
  | (k', v) :: rest, k => if k' == k then some v else pyLookup rest k

/-- Python `d.get(k, default)`: the stored value when the key is present
(even when that value is `None` or falsy), else the default. -/
def pyGetD (d : PyDict) (k : String) (default : PyVal) : PyVal :=
  (pyLookup d k).getD default

/-- Python `d.get(k)`: `None` when the key is absent. -/
def pyGet (d : PyDict) (k : String) : PyVal :=
  pyGetD d k .vNone

/-- Python truthiness (`if value:`) on the modelled values. -/
def pyTruthy : PyVal → Bool
  | .vNone => false
  | .vBool b => b
  | .vInt n => n != 0
  | .vStr s => s != ""
  | .vArr items => !items.isEmpty
  | .vObj fields => !fields.isEmpty

/-- Python `str(value)` for the scalar values the flag builder stringifies.
The composite branches are placeholders for Python's `repr`-style rendering;
no claim evaluates them, they are only carried around symbolically. -/
def pyStr : PyVal → String
  | .vNone => "None"
  | .vBool b => if b then "True" else "False"
  | .vInt n => toString n
  | .vStr s => s
  | .vArr _ => "<list>"
  | .vObj _ => "<dict>"

/-- Errors the embedded code can raise: a `kubernetes` `ApiException`
carrying its HTTP status, the `TimeoutError` of `_wait_for_deletion`,
a Python `KeyError` from a `d[k]` subscript, and the `AttributeError`
from calling `.items()` on a non-mapping. -/
inductive KErr where
  | api : Nat → KErr
  | timeout : KErr
  | keyError : String → KErr
  | attrError : KErr
deriving Repr, DecidableEq

/-- Python `d[k]`: raises `KeyError` when absent. -/
def pyGetItem (d : PyDict) (k : String) : Except KErr PyVal :=
  match pyLookup d k with
  | some v => .ok v
  | none => .error (.keyError k)

/-- Response of one Kubernetes custom-objects API call: success with a
body, or an `ApiException` with an HTTP status. -/
inductive ApiResp (α : Type) where
  | ok : α → ApiResp α
  | err : Nat → ApiResp α

/-- The fixed identity of the single managed resource
(`KServeClient.__init__`: namespace and inferenceservice name). -/
structure KClient where
  ns : String
  inferenceservice_name : String
deriving Repr, DecidableEq

/-- Result dict `{"action": ..., "name": ...}` returned by
`activate_model` / `deactivate_model`. -/
structure ActionResult where
  action : String
  name : String
deriving Repr, DecidableEq

/-- One cluster call made by the client, in order; the create call records
the manifest body it was given. -/
inductive Call where
  | read : Call
  | delete : Call
  | create : PyVal → Call

/-- Whether a trace entry is a create call. -/
def Call.isCreate : Call → Bool
  | .create _ => true
  | _ => false

/-- Whether a trace entry is a delete call. -/
def Call.isDelete : Call → Bool
  | .delete => true
  | _ => false

/-- The cluster's scripted responses for one `activate_model` run: the
response to the initial read, to the delete, to the i-th poll read inside
`_wait_for_deletion`, and to the create. -/
structure ClusterEnv where
  initialRead : ApiResp PyVal
  deleteResp : ApiResp PyVal
  pollReads : Nat → ApiResp PyVal
  createResp : ApiResp PyVal

/-- Embeds the fixed field-to-flag table of `KServeClient._build_vllm_args`. -/
def vllmFlagMap (k : String) : Option String :=
  if k == "tensorParallelSize" then some "--tensor-parallel-size"
  else if k == "dtype" then some "--dtype"
  else if k == "gpuMemoryUtilization" then some "--gpu-memory-utilization"
  else if k == "maxModelLen" then some "--max-model-len"
  else if k == "trustRemoteCode" then some "--trust-remote-code"
  else none

/-- One iteration of the `for key, value in vllm_config.items()` loop in
`_build_vllm_args`: skip unknown keys (`not flag`) and `None` values, a
`bool` emits the flag alone when true and nothing when false, and any
other value appends `[flag, str(value)]`. -/
def vllmStep (args : List String) (kv : String × PyVal) : List String :=
  match vllmFlagMap kv.1 with
  | none => args
  | some flag =>
    match kv.2 with
    | .vNone => args
    | .vBool b => if b then args ++ [flag] else args
    | v => args ++ [flag, pyStr v]

/-- Embeds `KServeClient._build_vllm_args(vllm_config)`. The argument is the value
of `model_config.get("vllm")`. A falsy config (`None`, `{}`, ...) returns
`[]` before `.items()` is reached; a truthy non-mapping would raise
`AttributeError` at `.items()`. -/
def build_vllm_args (vllm_config : PyVal) : Except KErr (List String) :=
  if !pyTruthy vllm_config then .ok []
  else
    match vllm_config with
    | .vObj items => .ok (items.foldl vllmStep [])
    | _ => .error .attrError

/-- Produces `[(k, v)]` when `cond` holds, else `[]`: one conditional dict insertion
(`if cond: d[k] = v`) in the manifest builder, in code order. -/
def entryIf (cond : Bool) (k : String) (v : PyVal) : PyDict :=
  if cond then [(k, v)] else []

/-- Embeds `KServeClient._build_inferenceservice(model_config)`, lines 103-170.
Dict keys appear in the order the Python code inserts them (dict-literal
order, then the later in-place insertions of lines 150-168).
`storage_uri` follows lines 107-109: the truthiness-guarded fallback from
`storageUri` to `hf://{hfModelId}`. Can raise: `AttributeError` from
`_build_vllm_args` on a truthy non-mapping `vllm` (line 127), and
`KeyError` from `model_config["id"]` (line 139). -/
def build_inferenceservice (c : KClient) (cfg : PyDict) : Except KErr PyVal :=
  let su0 := pyGet cfg "storageUri"
  let hf := pyGet cfg "hfModelId"
  let storage_uri : PyVal :=
    if !pyTruthy su0 && pyTruthy hf then .vStr ("hf://" ++ pyStr hf) else su0
  match build_vllm_args (pyGet cfg "vllm") with
  | .error e => .error e
  | .ok vllm_args =>
    match pyGetItem cfg "id" with
    | .error e => .error e
    | .ok idv =>
      let model_spec : PyDict :=
        [("modelFormat", .vObj [("name", .vStr "custom")]),
         ("runtime", pyGetD cfg "runtime" (.vStr "vllm-runtime"))]
        ++ entryIf (pyTruthy storage_uri) "storageUri" storage_uri
        ++ entryIf (pyLookup cfg "env").isSome "env" (pyGet cfg "env")
        ++ entryIf (pyLookup cfg "storage").isSome "storage" (pyGet cfg "storage")
        ++ entryIf (!vllm_args.isEmpty) "args" (.vArr (vllm_args.map .vStr))
        ++ entryIf (pyLookup cfg "resources").isSome "resources" (pyGet cfg "resources")
        ++ entryIf (pyLookup cfg "volumeMounts").isSome "volumeMounts" (pyGet cfg "volumeMounts")
      let predictor : PyDict :=
        [("minReplicas", .vInt 1), ("model", .vObj model_spec)]
        ++ entryIf (pyLookup cfg "nodeSelector").isSome "nodeSelector" (pyGet cfg "nodeSelector")
        ++ entryIf (pyLookup cfg "tolerations").isSome "tolerations" (pyGet cfg "tolerations")
        ++ entryIf (pyLookup cfg "resources").isSome "resources" (pyGet cfg "resources")
        ++ entryIf (pyLookup cfg "volumes").isSome "volumes" (pyGet cfg "volumes")
      .ok (.vObj
        [("apiVersion", .vStr "serving.kserve.io/v1beta1"),
         ("kind", .vStr "InferenceService"),
         ("metadata", .vObj
           [("name", .vStr c.inferenceservice_name),
            ("namespace", .vStr c.ns),
            ("annotations", .vObj
              [("serving.kserve.io/secretName", .vStr "hf-token"),
               ("model-manager/model-id", idv)])]),
         ("spec", .vObj
           [("predictor", .vObj predictor)])])

/-- Embeds `KServeClient.deactivate_model`, given the cluster's response to the
delete call: success returns `{"action": "deleted"}`, a 404 `ApiException`
returns `{"action": "already_deleted"}`, any other `ApiException` is
re-raised. -/
def deactivate_model (c : KClient) (deleteResp : ApiResp PyVal) : Except KErr ActionResult :=
  match deleteResp with
  | .ok _ => .ok ⟨"deleted", c.inferenceservice_name⟩
  | .err s =>
    if s == 404 then .ok ⟨"already_deleted", c.inferenceservice_name⟩
    else .error (.api s)

/-- Embeds `KServeClient.get_active_inferenceservice`, given the cluster's response
to the read: the body on success, `None` on a 404, any other `ApiException`
re-raised. -/
def get_active_inferenceservice (readResp : ApiResp PyVal) : Except KErr (Option PyVal) :=
  match readResp with
  | .ok v => .ok (some v)
  | .err s => if s == 404 then .ok none else .error (.api s)

/-- The `while time.time() < deadline` loop of
`KServeClient._wait_for_deletion`, with time made explicit: `t` is the
current time, `deadline` the absolute deadline, `interval` the sleep after
each successful read, and `polls` counts reads made so far (indexing
`reads`). Each read taking no time, iteration `i` runs at
`t0 + i * interval`. Returns the loop's outcome and the total number of
poll reads. `fuel` bounds the recursion; since every iteration advances
`t` by `interval ≥ 1` in every use below (`interval = 2`), starting with
`fuel = deadline - t` the `fuel = 0` fallback (which exits with the same
`TimeoutError` the loop exit raises) is never reached while `t < deadline`. -/
def waitLoop (reads : Nat → ApiResp PyVal) (interval deadline : Nat) :
    Nat → Nat → Nat → Except KErr Unit × Nat
  | fuel, t, polls =>
    if t < deadline then
      match fuel with
      | 0 => (.error .timeout, polls)
      | fuel' + 1 =>
        match reads polls with
        | .ok _ => waitLoop reads interval deadline fuel' (t + interval) (polls + 1)
        | .err s =>
          if s == 404 then (.ok (), polls + 1) else (.error (.api s), polls + 1)
    else (.error .timeout, polls)

/-- Embeds `KServeClient._wait_for_deletion(timeout=300, interval=2)`: poll the
read until it raises 404 (deletion observed), re-raising any other
`ApiException`, and raise `TimeoutError` once the deadline passes. Time
starts at 0, so `deadline = timeout`. -/
def wait_for_deletion (reads : Nat → ApiResp PyVal) (timeout : Nat := 300)
    (interval : Nat := 2) : Except KErr Unit × Nat :=
  waitLoop reads interval timeout timeout 0 0

/-- Embeds `KServeClient.activate_model(model_config)`, lines 33-63, against the
scripted cluster responses in `env`. Returns the outcome and the ordered
trace of cluster calls. Steps, in code order: the log f-string subscripts
`model_config['id']` (line 35, `KeyError` if absent); the manifest is
built (line 38); the resource is read; on success it is deleted via
`deactivate_model` and `_wait_for_deletion` polls until the read raises
404; a 404 from the initial read skips the teardown; any other
`ApiException` from the try block is re-raised; finally the create is
issued and `{"action": "created"}` returned. -/
def activate_model (c : KClient) (cfg : PyDict) (env : ClusterEnv) :
    Except KErr ActionResult × List Call :=
  match pyGetItem cfg "id" with
  | .error e => (.error e, [])
  | .ok _ =>
    match build_inferenceservice c cfg with
    | .error e => (.error e, [])
    | .ok isvc =>
      let afterCheck : Except KErr Unit × List Call :=
        match env.initialRead with
        | .err s =>
          if s == 404 then (.ok (), [.read]) else (.error (.api s), [.read])
        | .ok _ =>
          match deactivate_model c env.deleteResp with
          | .error e => (.error e, [.read, .delete])
          | .ok _ =>
            let (wres, polls) := wait_for_deletion env.pollReads
            (wres, [.read, .delete] ++ List.replicate polls .read)
      match afterCheck with
      | (.error e, calls) => (.error e, calls)
      | (.ok _, calls) =>
        match env.createResp with
        | .ok _ => (.ok ⟨"created", c.inferenceservice_name⟩, calls ++ [.create isvc])
        | .err s => (.error (.api s), calls ++ [.create isvc])

/-- Outcome of opening and parsing one catalog JSON file
(`ModelCatalog.load_catalog`, lines 32-34): the decoded configuration, or
any exception from `open`/`json.load`. -/
inductive ParseResult where
  | ok : PyDict → ParseResult
  | failed : ParseResult

/-- The in-memory catalog `self.models`. Python dict semantics for the
operations the code performs: `models[id] = cfg` binds `id` to `cfg`,
later bindings shadowing earlier ones; modelled as an association list
with the newest binding first, looked up front-to-back. -/
abbrev Catalog := List (PyVal × PyDict)

/-- The body of the `for json_file in models_path.glob("*.json")` loop in
`ModelCatalog.load_catalog` for one file: a parse failure is logged and
skipped; `model_config.get("id")` falsy (`if not model_id`) is warned and
skipped; otherwise `self.models[model_id] = model_config`. -/
def load_step (models : Catalog) (file : ParseResult) : Catalog :=
  match file with
  | .failed => models
  | .ok cfg =>
    let model_id := pyGet cfg "id"
    if pyTruthy model_id then (model_id, cfg) :: models else models

/-- Embeds `ModelCatalog.load_catalog` over the directory's files in glob order,
starting from the current `self.models`. -/
def load_catalog (models : Catalog) (files : List ParseResult) : Catalog :=
  files.foldl load_step models

/-- Embeds `ModelCatalog.reload_catalog`: `self.models.clear()` then
`load_catalog`. -/
def reload_catalog (_models : Catalog) (files : List ParseResult) : Catalog :=
  load_catalog [] files

/-- Python `==` between a stored dict key and the string `get_model` is
called with (string keys compare equal only to equal strings). -/
def keyMatchStr (k : PyVal) (q : String) : Bool :=
  match k with
  | .vStr s => s == q
  | _ => false

/-- Embeds `ModelCatalog.get_model(model_id)`: `self.models.get(model_id)`. With
the newest-first association list, the first match is the latest binding. -/
def get_model (models : Catalog) (model_id : String) : Option PyDict :=
  match models with
  | [] => none
  | (k, cfg) :: rest =>
    if keyMatchStr k model_id then some cfg else get_model rest model_id

/-- Whether an API response is a success. -/
def ApiResp.isOk {α : Type} : ApiResp α → Bool
  | .ok _ => true
  | .err _ => false

/-- Field lookup inside a manifest object value. -/
def objGet (v : PyVal) (k : String) : Option PyVal :=
  match v with
  | .vObj fields => pyLookup fields k
  | _ => none

/-- The `spec.predictor.model.storageUri` entry of a built manifest. -/
def manifest_storage_uri (m : PyVal) : Option PyVal :=
  (((objGet m "spec").bind (objGet · "predictor")).bind (objGet · "model")).bind
    (objGet · "storageUri")

/-- The tokens one `vllm` field contributes, per the field-to-flag table:
nothing for an unknown field, a `None` value or the boolean `false`; the
flag alone for the boolean `true`; `[flag, str(value)]` otherwise. -/
def vllmEmit (kv : String × PyVal) : List String :=
  match vllmFlagMap kv.1 with
  | none => []
  | some flag =>
    match kv.2 with
    | .vNone => []
    | .vBool b => if b then [flag] else []
    | v => [flag, pyStr v]

/-- Per-field emission concatenated in the mapping's insertion order. -/
def vllmArgsSpec : List (String × PyVal) → List String
  | [] => []
  | kv :: rest => vllmEmit kv ++ vllmArgsSpec rest

/-- Concrete client fixture. -/
def exClient : KClient := ⟨"ns", "isvc"⟩

/-- Concrete minimal model definition fixture. -/
def exCfg : PyDict := [("id", .vStr "m1")]

/-- The manifest `_build_inferenceservice` produces for `exCfg`. -/
def exManifest : PyVal :=
  .vObj
    [("apiVersion", .vStr "serving.kserve.io/v1beta1"),
     ("kind", .vStr "InferenceService"),
     ("metadata", .vObj
       [("name", .vStr "isvc"),
        ("namespace", .vStr "ns"),
        ("annotations", .vObj
          [("serving.kserve.io/secretName", .vStr "hf-token"),
           ("model-manager/model-id", .vStr "m1")])]),
     ("spec", .vObj
       [("predictor", .vObj
         [("minReplicas", .vInt 1),
          ("model", .vObj
            [("modelFormat", .vObj [("name", .vStr "custom")]),
             ("runtime", .vStr "vllm-runtime")])])])]

/-- Cluster fixture: resource absent, all mutations succeed. -/
def envAbsent : ClusterEnv := ⟨.err 404, .ok .vNone, fun _ => .err 404, .ok .vNone⟩

/-- Cluster fixture: resource present, delete converges on the first poll. -/
def envPresent : ClusterEnv := ⟨.ok .vNone, .ok .vNone, fun _ => .err 404, .ok .vNone⟩

/-- Cluster fixture: resource present and every poll read still finds it. -/
def envStuck : ClusterEnv := ⟨.ok .vNone, .ok .vNone, fun _ => .ok .vNone, .ok .vNone⟩

/-- Cluster fixture: the initial read fails with HTTP 500. -/
def envRead500 : ClusterEnv := ⟨.err 500, .ok .vNone, fun _ => .err 404, .ok .vNone⟩

/-- Definition fixture with a present-but-empty `storageUri` next to an
`hfModelId`. -/
def exCfgFalsy : PyDict :=
  [("id", .vStr "m"), ("storageUri", .vStr ""), ("hfModelId", .vStr "org/m")]

/-- Definition fixture: first file carrying id `m`. -/
def exCfgV1 : PyDict := [("id", .vStr "m"), ("v", .vInt 1)]

/-- Definition fixture: second file carrying the same id `m`. -/
def exCfgV2 : PyDict := [("id", .vStr "m"), ("v", .vInt 2)]

theorem isOk_exists {α : Type} {r : ApiResp α} (h : r.isOk = true) : ∃ v, r = .ok v := by
  cases r with
  | ok v => exact ⟨v, rfl⟩
  | err s => simp [ApiResp.isOk] at h

theorem vllmStep_eq (args : List String) (kv : String × PyVal) :
    vllmStep args kv = args ++ vllmEmit kv := by
  rcases kv with ⟨k, v⟩
  unfold vllmStep vllmEmit
  cases vllmFlagMap k with
  | none => simp
  | some flag =>
    cases v with
    | vNone => simp
    | vBool b => cases b <;> simp
    | vInt n => rfl
    | vStr s => rfl
    | vArr l => rfl
    | vObj l => rfl

theorem foldl_vllmStep (items : List (String × PyVal)) :
    ∀ acc, items.foldl vllmStep acc = acc ++ vllmArgsSpec items := by
  induction items with
  | nil => intro acc; simp [vllmArgsSpec]
  | cons kv rest ih =>
    intro acc
    simp only [List.foldl_cons, vllmStep_eq, vllmArgsSpec, ih, List.append_assoc]

theorem waitLoop_find (reads : Nat → ApiResp PyVal) (interval deadline s : Nat) :
    ∀ k fuel t polls : Nat,
      (∀ i, i < k → (reads (polls + i)).isOk = true) →
      reads (polls + k) = .err s →
      t + interval * k < deadline →
      k < fuel →
      waitLoop reads interval deadline fuel t polls =
        (if s == 404 then .ok () else .error (.api s), polls + k + 1) := by
  intro k
  induction k with
  | zero =>
    intro fuel t polls _ herr hlt hfuel
    obtain ⟨fuel', rfl⟩ : ∃ f, fuel = f + 1 := ⟨fuel - 1, by omega⟩
    unfold waitLoop
    have ht : t < deadline := by simp only [Nat.mul_zero, Nat.add_zero] at hlt; exact hlt
    rw [if_pos ht]
    simp only [Nat.add_zero] at herr
    rw [herr]
    cases h4 : (s == 404) <;> simp [h4]
  | succ k ih =>
    intro fuel t polls hok herr hlt hfuel
    obtain ⟨fuel', rfl⟩ : ∃ f, fuel = f + 1 := ⟨fuel - 1, by omega⟩
    unfold waitLoop
    have ht : t < deadline :=
      lt_of_le_of_lt (Nat.le_add_right t (interval * (k + 1))) hlt
    rw [if_pos ht]
    obtain ⟨v, hv⟩ := isOk_exists (by simpa using hok 0 (by omega))
    rw [hv]
    rw [Nat.mul_succ] at hlt
    have hrec := ih fuel' (t + interval) (polls + 1)
      (fun i hi => by
        have := hok (i + 1) (by omega)
        simpa [show polls + (i + 1) = polls + 1 + i by omega] using this)
      (by rw [show polls + 1 + k = polls + (k + 1) by omega]; exact herr)
      (by omega)
      (by omega)
    rw [show polls + (k + 1) + 1 = polls + 1 + k + 1 by omega]
    exact hrec

theorem waitLoop_timeout (reads : Nat → ApiResp PyVal) (interval deadline : Nat) :
    ∀ j fuel t polls : Nat,
      deadline ≤ t + interval * j →
      (∀ i, i < j → t + interval * i < deadline) →
      (∀ i, i < j → (reads (polls + i)).isOk = true) →
      j ≤ fuel →
      waitLoop reads interval deadline fuel t polls = (.error .timeout, polls + j) := by
  intro j
  induction j with
  | zero =>
    intro fuel t polls hstop _ _ _
    unfold waitLoop
    simp only [Nat.mul_zero, Nat.add_zero] at hstop
    rw [if_neg (by omega)]
    simp
  | succ j ih =>
    intro fuel t polls hstop hrun hok hfuel
    obtain ⟨fuel', rfl⟩ : ∃ f, fuel = f + 1 := ⟨fuel - 1, by omega⟩
    unfold waitLoop
    have ht : t < deadline := by
      have := hrun 0 (by omega)
      simpa using this
    rw [if_pos ht]
    obtain ⟨v, hv⟩ := isOk_exists (by simpa using hok 0 (by omega))
    rw [hv]
    rw [Nat.mul_succ] at hstop
    have hrec := ih fuel' (t + interval) (polls + 1)
      (by omega)
      (fun i hi => by
        have := hrun (i + 1) (by omega)
        rw [Nat.mul_succ] at this
        omega)
      (fun i hi => by
        have := hok (i + 1) (by omega)
        simpa [show polls + (i + 1) = polls + 1 + i by omega] using this)
      (by omega)
    rw [show polls + (j + 1) = polls + 1 + j by omega]
    exact hrec

theorem activate_absent_eq (c : KClient) (cfg : PyDict) (env : ClusterEnv) (v m : PyVal)
    (hv : pyLookup cfg "id" = some v)
    (hb : build_inferenceservice c cfg = .ok m)
    (hr : env.initialRead = .err 404) :
    activate_model c cfg env =
      match env.createResp with
      | .ok _ => (.ok ⟨"created", c.inferenceservice_name⟩, [.read, .create m])
      | .err s => (.error (.api s), [.read, .create m]) := by
  unfold activate_model
  simp only [pyGetItem, hv, hb, hr]
  cases env.createResp <;> simp

theorem activate_present_eq (c : KClient) (cfg : PyDict) (env : ClusterEnv) (v m w w2 : PyVal)
    (hv : pyLookup cfg "id" = some v)
    (hb : build_inferenceservice c cfg = .ok m)
    (hr : env.initialRead = .ok w)
    (hd : env.deleteResp = .ok w2) :
    activate_model c cfg env =
      match (wait_for_deletion env.pollReads).1 with
      | .error e =>
        (.error e,
         [.read, .delete] ++ List.replicate (wait_for_deletion env.pollReads).2 .read)
      | .ok _ =>
        match env.createResp with
        | .ok _ =>
          (.ok ⟨"created", c.inferenceservice_name⟩,
           [.read, .delete] ++ List.replicate (wait_for_deletion env.pollReads).2 .read
             ++ [.create m])
        | .err s =>
          (.error (.api s),
           [.read, .delete] ++ List.replicate (wait_for_deletion env.pollReads).2 .read
             ++ [.create m]) := by
  unfold activate_model
  simp only [pyGetItem, hv, hb, hr, hd, deactivate_model]
  rcases hw : wait_for_deletion env.pollReads with ⟨wres, polls⟩
  simp only [hw]
  cases wres with
  | error e => simp
  | ok u => cases env.createResp <;> simp

theorem countP_replicate_false {α : Type} (p : α → Bool) (a : α) (h : p a = false)
    (n : Nat) : List.countP p (List.replicate n a) = 0 := by
  induction n with
  | zero => rfl
  | succ n ih => rw [List.replicate_succ, List.countP_cons, ih]; simp [h]

/-- C1: on a Present resource (the initial read succeeds with any prior
spec), `activate_model` issues exactly one delete, then poll reads until
one returns 404, then exactly one create with the newly built manifest,
and returns `{"action": "created"}`; the `k` successful polls plus the
final 404 poll stay within the 300-unit deadline at 2-unit intervals. -/
theorem activate_present_replaces (c : KClient) (cfg : PyDict) (env : ClusterEnv)
    (idv m w w2 : PyVal) (k : Nat)
    (hid : pyLookup cfg "id" = some idv)
    (hb : build_inferenceservice c cfg = .ok m)
    (hread : env.initialRead = .ok w)
    (hdel : env.deleteResp = .ok w2)
    (hpoll : ∀ i, i < k → (env.pollReads i).isOk = true)
    (h404 : env.pollReads k = .err 404)
    (hk : 2 * k < 300)
    (hcreate : env.createResp.isOk = true) :
    activate_model c cfg env =
      (.ok ⟨"created", c.inferenceservice_name⟩,
        [.read, .delete] ++ List.replicate (k + 1) .read ++ [.create m])
    ∧ (activate_model c cfg env).2.countP Call.isDelete = 1
    ∧ (activate_model c cfg env).2.countP Call.isCreate = 1 := by
  have hw : wait_for_deletion env.pollReads = (.ok (), k + 1) := by
    unfold wait_for_deletion
    have h := waitLoop_find env.pollReads 2 300 404 k 300 0 0
      (by simpa using hpoll) (by simpa using h404) (by omega) (by omega)
    simpa using h
  obtain ⟨cv, hcv⟩ := isOk_exists hcreate
  have heq := activate_present_eq c cfg env idv m w w2 hid hb hread hdel
  rw [hw, hcv] at heq
  have heq' : activate_model c cfg env =
      (.ok ⟨"created", c.inferenceservice_name⟩,
        [.read, .delete] ++ List.replicate (k + 1) .read ++ [.create m]) := heq
  refine ⟨heq', ?_, ?_⟩ <;> rw [heq'] <;>
    simp [List.countP_append, List.countP_cons, Call.isDelete, Call.isCreate,
      countP_replicate_false]

/-- Witness for C1 at a concrete Present environment where the first poll
read already returns 404. -/
theorem activate_present_replaces_witness :
    activate_model exClient exCfg envPresent =
      (.ok ⟨"created", "isvc"⟩,
        [.read, .delete] ++ List.replicate (0 + 1) .read ++ [.create exManifest])
    ∧ (activate_model exClient exCfg envPresent).2.countP Call.isDelete = 1
    ∧ (activate_model exClient exCfg envPresent).2.countP Call.isCreate = 1 :=
  activate_present_replaces exClient exCfg envPresent (.vStr "m1") exManifest .vNone .vNone 0
    rfl rfl rfl rfl (fun i hi => absurd hi (by omega)) rfl (by omega) rfl

/-- C5: on an Absent resource (initial read returns 404), `activate_model`
issues exactly one create and zero deletes and returns
`{"action": "created"}`. -/
theorem activate_absent_creates (c : KClient) (cfg : PyDict) (env : ClusterEnv)
    (idv m : PyVal)
    (hid : pyLookup cfg "id" = some idv)
    (hb : build_inferenceservice c cfg = .ok m)
    (hread : env.initialRead = .err 404)
    (hcreate : env.createResp.isOk = true) :
    activate_model c cfg env =
      (.ok ⟨"created", c.inferenceservice_name⟩, [.read, .create m])
    ∧ (activate_model c cfg env).2.countP Call.isCreate = 1
    ∧ (activate_model c cfg env).2.countP Call.isDelete = 0 := by
  obtain ⟨cv, hcv⟩ := isOk_exists hcreate
  have heq := activate_absent_eq c cfg env idv m hid hb hread
  rw [hcv] at heq
  have heq' : activate_model c cfg env =
      (.ok ⟨"created", c.inferenceservice_name⟩, [.read, .create m]) := heq
  refine ⟨heq', ?_, ?_⟩ <;> rw [heq'] <;>
    simp [List.countP_cons, Call.isDelete, Call.isCreate]

/-- Witness for C5 at a concrete Absent environment. -/
theorem activate_absent_creates_witness :
    activate_model exClient exCfg envAbsent =
      (.ok ⟨"created", "isvc"⟩, [.read, .create exManifest])
    ∧ (activate_model exClient exCfg envAbsent).2.countP Call.isCreate = 1
    ∧ (activate_model exClient exCfg envAbsent).2.countP Call.isDelete = 0 :=
  activate_absent_creates exClient exCfg envAbsent (.vStr "m1") exManifest rfl rfl rfl rfl

/-- C2: when every poll read inside the deletion wait still finds the
resource through the whole 300-unit deadline (150 polls at 2-unit
intervals), `activate_model` raises the timeout error and never issues the
create call. -/
theorem activate_deletion_timeout (c : KClient) (cfg : PyDict) (env : ClusterEnv)
    (idv m w w2 : PyVal)
    (hid : pyLookup cfg "id" = some idv)
    (hb : build_inferenceservice c cfg = .ok m)
    (hread : env.initialRead = .ok w)
    (hdel : env.deleteResp = .ok w2)
    (hpoll : ∀ i, i < 150 → (env.pollReads i).isOk = true) :
    activate_model c cfg env =
      (.error .timeout, [.read, .delete] ++ List.replicate 150 .read)
    ∧ (activate_model c cfg env).2.countP Call.isCreate = 0 := by
  have hw : wait_for_deletion env.pollReads = (.error .timeout, 150) := by
    unfold wait_for_deletion
    have h := waitLoop_timeout env.pollReads 2 300 150 300 0 0
      (by omega) (fun i hi => by omega) (by simpa using hpoll) (by omega)
    simpa using h
  have heq := activate_present_eq c cfg env idv m w w2 hid hb hread hdel
  rw [hw] at heq
  have heq' : activate_model c cfg env =
      (.error .timeout, [.read, .delete] ++ List.replicate 150 .read) := heq
  refine ⟨heq', ?_⟩
  rw [heq']
  simp [List.countP_cons, Call.isCreate, countP_replicate_false]

/-- Witness for C2 at a concrete environment whose poll reads always
succeed. -/
theorem activate_deletion_timeout_witness :
    activate_model exClient exCfg envStuck =
      (.error .timeout, [.read, .delete] ++ List.replicate 150 .read)
    ∧ (activate_model exClient exCfg envStuck).2.countP Call.isCreate = 0 :=
  activate_deletion_timeout exClient exCfg envStuck (.vStr "m1") exManifest .vNone .vNone
    rfl rfl rfl rfl (fun _ _ => rfl)

theorem build_vllm_args_error (x : PyVal) (e : KErr)
    (h : build_vllm_args x = .error e) : e = .attrError := by
  unfold build_vllm_args at h
  split at h
  · exact Except.noConfusion h
  · split at h
    · exact Except.noConfusion h
    · injection h with h'
      exact h'.symm

theorem build_error_attr (c : KClient) (cfg : PyDict) (v : PyVal) (e : KErr)
    (hv : pyLookup cfg "id" = some v)
    (h : build_inferenceservice c cfg = .error e) : e = .attrError := by
  unfold build_inferenceservice at h
  cases hvl : build_vllm_args (pyGet cfg "vllm") with
  | error e' =>
    simp only [hvl] at h
    injection h with h'
    exact h' ▸ build_vllm_args_error _ _ hvl
  | ok args =>
    simp only [hvl, pyGetItem, hv] at h
    exact Except.noConfusion h

theorem waitLoop_result_shape (reads : Nat → ApiResp PyVal) (interval deadline : Nat) :
    ∀ fuel t polls,
      (waitLoop reads interval deadline fuel t polls).1 = .ok ()
      ∨ (waitLoop reads interval deadline fuel t polls).1 = .error .timeout
      ∨ ∃ s, (waitLoop reads interval deadline fuel t polls).1 = .error (.api s) := by
  intro fuel
  induction fuel with
  | zero =>
    intro t polls
    unfold waitLoop
    by_cases h : t < deadline
    · rw [if_pos h]
      exact Or.inr (Or.inl rfl)
    · rw [if_neg h]
      exact Or.inr (Or.inl rfl)
  | succ f ih =>
    intro t polls
    unfold waitLoop
    by_cases h : t < deadline
    · rw [if_pos h]
      cases hr : reads polls with
      | ok v => exact ih (t + interval) (polls + 1)
      | err s =>
        cases h4 : (s == 404) with
        | true => exact Or.inl (by simp [h4])
        | false => exact Or.inr (Or.inr ⟨s, by simp [h4]⟩)
    · rw [if_neg h]
      exact Or.inr (Or.inl rfl)

/-- C7: any cluster error other than 404 arising from a read, create or
delete (including poll reads inside the deletion wait) is propagated
unchanged (`KErr.api s` with the original status) to the caller of
`activate_model`, `deactivate_model` or `get_active_inferenceservice`,
and the failing operation appears exactly once in the trace — no retry. -/
theorem errors_propagate (c : KClient) (cfg : PyDict) (env : ClusterEnv)
    (idv m v w : PyVal) (s k : Nat)
    (hid : pyLookup cfg "id" = some idv)
    (hb : build_inferenceservice c cfg = .ok m)
    (hs : s ≠ 404) :
    get_active_inferenceservice (.err s) = .error (.api s)
    ∧ deactivate_model c (.err s) = .error (.api s)
    ∧ (env.initialRead = .err s →
        activate_model c cfg env = (.error (.api s), [.read]))
    ∧ (env.initialRead = .ok v → env.deleteResp = .err s →
        activate_model c cfg env = (.error (.api s), [.read, .delete]))
    ∧ (env.initialRead = .err 404 → env.createResp = .err s →
        activate_model c cfg env = (.error (.api s), [.read, .create m]))
    ∧ (env.initialRead = .ok v → env.deleteResp = .ok w →
        (∀ i, i < k → (env.pollReads i).isOk = true) →
        env.pollReads k = .err s → 2 * k < 300 →
        activate_model c cfg env =
          (.error (.api s), [.read, .delete] ++ List.replicate (k + 1) .read)) := by
  have hsb : (s == 404) = false := by simp [hs]
  refine ⟨?_, ?_, ?_, ?_, ?_, ?_⟩
  · simp [get_active_inferenceservice, hsb]
  · simp [deactivate_model, hsb]
  · intro hr
    unfold activate_model
    simp [pyGetItem, hid, hb, hr, hsb]
  · intro hr hd
    unfold activate_model
    simp [pyGetItem, hid, hb, hr, hd, deactivate_model, hsb]
  · intro hr hc
    have heq := activate_absent_eq c cfg env idv m hid hb hr
    rw [hc] at heq
    exact heq
  · intro hr hd hpoll herr hk
    have hwl := waitLoop_find env.pollReads 2 300 s k 300 0 0
      (by simpa using hpoll) (by simpa using herr) (by omega) (by omega)
    have hw : wait_for_deletion env.pollReads = (.error (.api s), k + 1) := by
      unfold wait_for_deletion
      rw [hwl]
      simp [hsb]
    have heq := activate_present_eq c cfg env idv m v w hid hb hr hd
    rw [hw] at heq
    exact heq

/-- Witness for C7: a 500 on the initial read propagates from
`activate_model` after a single read, and from `deactivate_model`. -/
theorem errors_propagate_witness :
    activate_model exClient exCfg envRead500 = (.error (.api 500), [.read])
    ∧ deactivate_model exClient (.err 500) = .error (.api 500) := by
  have h := errors_propagate exClient exCfg envRead500 (.vStr "m1") exManifest
    .vNone .vNone 500 0 rfl rfl (by decide)
  exact ⟨h.2.2.1 rfl, h.2.1⟩

/-- C9: the function `activate_model` requires the definition to contain `"id"`: when
the key is absent it fails with the Python `KeyError` before any cluster
call (empty trace); when the key is present, neither the manifest builder
nor `activate_model` can fail with that `KeyError`. -/
theorem activate_requires_id (c : KClient) (cfg : PyDict) (env : ClusterEnv) :
    (pyLookup cfg "id" = none →
      activate_model c cfg env = (.error (.keyError "id"), []))
    ∧ (∀ v, pyLookup cfg "id" = some v →
        build_inferenceservice c cfg ≠ .error (.keyError "id")
        ∧ (activate_model c cfg env).1 ≠ .error (.keyError "id")) := by
  constructor
  · intro h
    unfold activate_model
    simp [pyGetItem, h]
  · intro v hv
    constructor
    · intro hcon
      exact KErr.noConfusion (build_error_attr c cfg v _ hv hcon)
    · unfold activate_model
      simp only [pyGetItem, hv]
      cases hb : build_inferenceservice c cfg with
      | error e =>
        have he := build_error_attr c cfg v e hv hb
        subst he
        simp
      | ok m =>
        cases hr : env.initialRead with
        | err s =>
          cases h4 : (s == 404) with
          | true => cases hc : env.createResp <;> simp [h4, hc]
          | false => simp [h4]
        | ok w =>
          cases hd : env.deleteResp with
          | ok w2 =>
            simp only [hd, deactivate_model]
            rcases hwp : wait_for_deletion env.pollReads with ⟨wres, polls⟩
            have hshape := waitLoop_result_shape env.pollReads 2 300 300 0 0
            rw [show waitLoop env.pollReads 2 300 300 0 0 = (wres, polls) from hwp]
              at hshape
            simp only [Prod.fst] at hshape
            simp only [hwp]
            rcases hshape with h1 | h1 | ⟨s', h1⟩ <;> subst h1
            · cases hc : env.createResp <;> simp [hc]
            · simp
            · simp
          | err s2 =>
            simp only [hd, deactivate_model]
            cases h4 : (s2 == 404) with
            | false => simp [h4]
            | true =>
              simp only [h4]
              rcases hwp : wait_for_deletion env.pollReads with ⟨wres, polls⟩
              have hshape := waitLoop_result_shape env.pollReads 2 300 300 0 0
              rw [show waitLoop env.pollReads 2 300 300 0 0 = (wres, polls) from hwp]
                at hshape
              simp only [Prod.fst] at hshape
              simp only [hwp]
              rcases hshape with h1 | h1 | ⟨s', h1⟩ <;> subst h1
              · cases hc : env.createResp <;> simp [hc]
              · simp
              · simp

/-- Witness for C9: an id-less definition fails with `KeyError` and an
empty trace; a definition with an id never produces that error. -/
theorem activate_requires_id_witness :
    activate_model exClient [] envAbsent = (.error (.keyError "id"), [])
    ∧ build_inferenceservice exClient exCfg ≠ .error (.keyError "id") :=
  ⟨(activate_requires_id exClient [] envAbsent).1 rfl,
   ((activate_requires_id exClient exCfg envAbsent).2 (.vStr "m1") rfl).1⟩

/-- C6: the function `deactivate_model` yields `deleted` on a successful delete and
`already_deleted` on a 404, both as success results; and
`get_active_inferenceservice` returns the spec on a successful read and a
`none` success (not an error) on a 404. -/
theorem deactivate_get_active_notfound (c : KClient) (v : PyVal) :
    deactivate_model c (.ok v) = .ok ⟨"deleted", c.inferenceservice_name⟩
    ∧ deactivate_model c (.err 404) = .ok ⟨"already_deleted", c.inferenceservice_name⟩
    ∧ get_active_inferenceservice (.ok v) = .ok (some v)
    ∧ get_active_inferenceservice (.err 404) = .ok none :=
  ⟨rfl, rfl, rfl, rfl⟩

/-- C3 counterexample: a known field whose value is `None` emits nothing,
whereas the claim's "any other value is stringified into two tokens" would
require `["--dtype", "None"]`. -/
theorem vllm_none_value_counterexample :
    build_vllm_args (.vObj [("dtype", .vNone)]) = .ok []
    ∧ ([] : List String) ≠ ["--dtype", "None"] :=
  ⟨rfl, by decide⟩

/-- C3 (amended): for every vllm mapping, the translation concatenates,
per field in insertion order: nothing for an unknown field, a `None`
value, or the boolean `false`; the flag alone for the boolean `true`; and
`[flag, stringified value]` for any other value (`vllmEmit`). -/
theorem build_vllm_args_per_field (items : List (String × PyVal)) :
    build_vllm_args (.vObj items) = .ok (vllmArgsSpec items) := by
  cases items with
  | nil => rfl
  | cons kv rest =>
    unfold build_vllm_args
    simp [pyTruthy, foldl_vllmStep, vllmStep_eq, vllmArgsSpec]

theorem pyLookup_entryIf_append (cond : Bool) (k : String) (v : PyVal) (rest : PyDict)
    (q : String) :
    pyLookup (entryIf cond k v ++ rest) q =
      if cond && (k == q) then some v else pyLookup rest q := by
  cases cond with
  | false => simp [entryIf]
  | true => simp [entryIf, pyLookup]

theorem pyLookup_entryIf (cond : Bool) (k : String) (v : PyVal) (q : String) :
    pyLookup (entryIf cond k v) q = if cond && (k == q) then some v else none := by
  cases cond <;> simp [entryIf, pyLookup]

theorem hf_prefix_ne_empty (s : String) : ("hf://" ++ s) ≠ "" := by
  intro h
  have hlen : ("hf://" ++ s).length = (0 : Nat) := by rw [h]; rfl
  rw [String.length_append] at hlen
  have : ("hf://" : String).length = 5 := rfl
  omega

/-- C4 counterexample: with `storageUri` present but empty and an
`hfModelId` present, the built manifest's `storageUri` is the derived
`hf://org/m`, not the explicit field's value `""` that the claim's
"explicit field wins if present" requires. -/
theorem storage_uri_falsy_counterexample :
    (build_inferenceservice exClient exCfgFalsy).toOption.bind manifest_storage_uri
      = some (.vStr "hf://org/m")
    ∧ (build_inferenceservice exClient exCfgFalsy).toOption.bind manifest_storage_uri
      ≠ some (.vStr "") := by
  refine ⟨rfl, fun h => ?_⟩
  rw [show (build_inferenceservice exClient exCfgFalsy).toOption.bind manifest_storage_uri
      = some (.vStr "hf://org/m") from rfl] at h
  injection h with h1
  injection h1 with h2
  exact absurd h2 (by decide)

/-- C4 (amended): the built manifest's `spec.predictor.model.storageUri`
is the explicit `storageUri` field's value when that value is truthy; else
`hf://{hfModelId}` when `hfModelId`'s value is truthy; else the key is
omitted. -/
theorem manifest_storage_uri_resolution (c : KClient) (cfg : PyDict) (m : PyVal)
    (hb : build_inferenceservice c cfg = .ok m) :
    manifest_storage_uri m =
      (if pyTruthy (pyGet cfg "storageUri") then some (pyGet cfg "storageUri")
       else if pyTruthy (pyGet cfg "hfModelId") then
         some (.vStr ("hf://" ++ pyStr (pyGet cfg "hfModelId")))
       else none) := by
  unfold build_inferenceservice at hb
  cases hvl : build_vllm_args (pyGet cfg "vllm") with
  | error e =>
    simp only [hvl] at hb
    exact Except.noConfusion hb
  | ok args =>
    cases hgi : pyGetItem cfg "id" with
    | error e =>
      simp only [hvl, hgi] at hb
      exact Except.noConfusion hb
    | ok idv =>
      simp only [hvl, hgi] at hb
      injection hb with hm
      subst hm
      cases h1 : pyTruthy (pyGet cfg "storageUri") with
      | true =>
        simp [manifest_storage_uri, objGet, pyLookup, pyLookup_entryIf_append, h1]
      | false =>
        cases h2 : pyTruthy (pyGet cfg "hfModelId") with
        | true =>
          have hne := hf_prefix_ne_empty (pyStr (pyGet cfg "hfModelId"))
          simp [manifest_storage_uri, objGet, pyLookup, pyLookup_entryIf_append,
            h1, h2, pyTruthy, hne]
        | false =>
          simp [manifest_storage_uri, objGet, pyLookup, pyLookup_entryIf_append,
            pyLookup_entryIf, h1, h2]

/-- Witness for C4's amended theorem: for the minimal definition without
`storageUri` or `hfModelId` the key is omitted. -/
theorem manifest_storage_uri_resolution_witness :
    manifest_storage_uri exManifest = none :=
  manifest_storage_uri_resolution exClient exCfg exManifest rfl

/-- C8: a reload over one malformed file and one valid definition keeps
only the valid definition (in either file order), retrievable by its id;
the per-file failure neither aborts the reload nor surfaces as an error
(the reload is a total function of the file list). -/
theorem reload_skips_malformed (ms : Catalog) (cfg : PyDict) (idStr : String)
    (hid : pyGet cfg "id" = .vStr idStr) (hne : idStr ≠ "") :
    reload_catalog ms [.failed, .ok cfg] = [(.vStr idStr, cfg)]
    ∧ reload_catalog ms [.ok cfg, .failed] = [(.vStr idStr, cfg)]
    ∧ get_model (reload_catalog ms [.failed, .ok cfg]) idStr = some cfg := by
  have htr : pyTruthy (PyVal.vStr idStr) = true := by simp [pyTruthy, hne]
  refine ⟨?_, ?_, ?_⟩ <;>
    simp [reload_catalog, load_catalog, load_step, hid, htr, get_model, keyMatchStr]

/-- Witness for C8 on concrete files. -/
theorem reload_skips_malformed_witness :
    reload_catalog [] [.failed, .ok exCfg] = [(.vStr "m1", exCfg)]
    ∧ reload_catalog [] [.ok exCfg, .failed] = [(.vStr "m1", exCfg)]
    ∧ get_model (reload_catalog [] [.failed, .ok exCfg]) "m1" = some exCfg :=
  reload_skips_malformed [] exCfg "m1" rfl (by decide)

/-- C10: when two files loaded in one pass carry the same id, the catalog
maps that id to the definition from the later file, the earlier one being
silently discarded: every lookup behaves as on the one-entry catalog
holding the later definition, and the load completes normally. -/
theorem load_duplicate_id_last_wins (cfg1 cfg2 : PyDict) (idStr : String)
    (h1 : pyGet cfg1 "id" = .vStr idStr) (h2 : pyGet cfg2 "id" = .vStr idStr)
    (hne : idStr ≠ "") :
    get_model (load_catalog [] [.ok cfg1, .ok cfg2]) idStr = some cfg2
    ∧ ∀ q : String, get_model (load_catalog [] [.ok cfg1, .ok cfg2]) q =
        get_model [(.vStr idStr, cfg2)] q := by
  have htr : pyTruthy (PyVal.vStr idStr) = true := by simp [pyTruthy, hne]
  have hload : load_catalog [] [.ok cfg1, .ok cfg2] =
      [(.vStr idStr, cfg2), (.vStr idStr, cfg1)] := by
    simp [load_catalog, load_step, h1, h2, htr]
  constructor
  · rw [hload]
    simp [get_model, keyMatchStr]
  · intro q
    rw [hload]
    by_cases hq : idStr = q
    · subst hq
      simp [get_model, keyMatchStr]
    · have hqb : (idStr == q) = false := by simp [hq]
      simp [get_model, keyMatchStr, hqb]

/-- Witness for C10 on concrete duplicate-id files. -/
theorem load_duplicate_id_last_wins_witness :
    get_model (load_catalog [] [.ok exCfgV1, .ok exCfgV2]) "m" = some exCfgV2 :=
  (load_duplicate_id_last_wins exCfgV1 exCfgV2 "m" rfl rfl (by decide)).1

end OLMM
